import Mathlib

/-!
# Verification of the EEMT job orchestration engine

This development embeds the job-lifecycle core of the EEMT web interface
(`web-interface/app.py`, `web-interface/containers/workflow_manager.py`,
`web-interface/cleanup_jobs.py`) as executable Lean definitions and proves
properties of the embedded code.

Conventions used throughout:

* SQLite rows become Lean structures; a `NULL`-able column becomes an
  `Option`.
* Wall-clock timestamps (`datetime.now()`) are threaded in explicitly as
  natural numbers.
* Python `float` values that flow through the progress pipeline are modelled
  as exact fractions (`PyFloat`, an integer numerator with a power-of-ten
  style positive denominator); Python `float` string formatting and parsing
  are modelled by the executable functions below.
* Filesystem state is modelled by explicit association lists / flags, and a
  raised filesystem exception by an explicit boolean input.
-/

set_option autoImplicit false

namespace EEMT

/-- Status constants of class `JobStatus` in `web-interface/app.py`
(`pending`, `running`, `completed`, `failed`). -/
inductive JobStatus where
  | pending
  | running
  | completed
  | failed
deriving DecidableEq

/-- Row of the `jobs` table relevant to lifecycle claims: `status`,
`progress`, `error_message`, `started_at`, `completed_at`
(`web-interface/app.py`, `init_database`). -/
structure JobRecord where
  status : JobStatus
  progress : ℤ
  errorMessage : Option String
  startedAt : Option ℕ
  completedAt : Option ℕ
deriving DecidableEq

/-- Freshly created job row: `JobManager.create_job` / the `submit-job`
endpoint insert status `pending`, progress `0` and NULL timestamps and
error message. -/
def create_job : JobRecord :=
  { status := JobStatus.pending
  , progress := 0
  , errorMessage := none
  , startedAt := none
  , completedAt := none }

/-- Embedding of `JobManager.update_status` (`web-interface/app.py`,
lines 116-161).  The SQL `UPDATE` statements translate as follows: for a
`running` write, `started_at = COALESCE(started_at, now)`; for a
`completed`/`failed` write, `completed_at = now` unconditionally; the
`progress` column is written only when a progress argument is supplied;
`error_message` is always written with the supplied argument (NULL when
absent). -/
def update_status (rec : JobRecord) (status : JobStatus) (progress : Option ℤ)
    (error : Option String) (now : ℕ) : JobRecord :=
  match status with
  | JobStatus.running =>
      { rec with
          status := JobStatus.running
          progress := progress.getD rec.progress
          errorMessage := error
          startedAt := some (rec.startedAt.getD now) }
  | JobStatus.completed =>
      { rec with
          status := JobStatus.completed
          progress := progress.getD rec.progress
          errorMessage := error
          completedAt := some now }
  | JobStatus.failed =>
      { rec with
          status := JobStatus.failed
          progress := progress.getD rec.progress
          errorMessage := error
          completedAt := some now }
  | JobStatus.pending =>
      { rec with
          status := JobStatus.pending
          progress := progress.getD rec.progress
          errorMessage := error }

/-- Embedding of `JobManager.cancel_job` (`web-interface/app.py`,
lines 249-280).  The second input is whether the job id is a key of
`JobManager.active_containers`; the result is the returned boolean, the
job row afterwards, and the membership afterwards (the code deletes the
entry when present before finalizing the job as failed). -/
def cancel_job (job : Option JobRecord) (inActiveContainers : Bool) (now : ℕ) :
    Bool × Option JobRecord × Bool :=
  match job with
  | none => (false, none, inActiveContainers)
  | some rec =>
      if rec.status ≠ JobStatus.running then
        (false, some rec, inActiveContainers)
      else
        (true,
         some (update_status rec JobStatus.failed none (some "Job cancelled by user") now),
         false)

/-- Artifacts associated with one job: the per-job results directory
`results/{job_id}`, the archive `results/{job_id}_results.zip`, and the
uploaded files matching `uploads/{job_id}_*`. -/
structure JobArtifacts where
  resultsDir : Bool
  resultZip : Bool
  uploadCount : ℕ
deriving DecidableEq

/-- Artifact state after `JobManager.delete_job` finished its cleanup. -/
def JobArtifacts.cleared : JobArtifacts :=
  { resultsDir := false, resultZip := false, uploadCount := 0 }

/-- Embedding of `JobManager.delete_job` (`web-interface/app.py`,
lines 204-247).  The row is deleted from the database first; artifact
cleanup runs afterwards.  `fsRaises` models `shutil` raising during
artifact cleanup (the surrounding `try` turns it into a
`(False, "Database or filesystem error: ...")` return); `fsErrText` is the
exception text.  An exception can only be raised when some artifact
removal is actually attempted.  Returns the `(success, error_message)`
pair, the job row afterwards, and the artifacts afterwards. -/
def delete_job (job : Option JobRecord) (fs : JobArtifacts) (fsRaises : Bool)
    (fsErrText : String) : (Bool × String) × Option JobRecord × JobArtifacts :=
  match job with
  | none => ((false, "Job not found"), none, fs)
  | some rec =>
      if rec.status = JobStatus.running then
        ((false, "Cannot delete running job"), some rec, fs)
      else
        if fsRaises ∧ (fs.resultsDir ∨ fs.resultZip ∨ 0 < fs.uploadCount) then
          ((false, "Database or filesystem error: " ++ fsErrText), none, fs)
        else
          ((true, ""), none, JobArtifacts.cleared)

/-- HTTP status code produced by the `DELETE /api/jobs/{job_id}` endpoint
(`web-interface/app.py`, lines 745-763) from the result of
`JobManager.delete_job`. -/
def delete_job_endpoint_code (result : Bool × String) : ℕ :=
  if result.1 then 200
  else if result.2 = "Job not found" then 404
  else if result.2 = "Cannot delete running job" then 400
  else 500

/-- Model of a Python `float` as an exact fraction: `num / den` with `den`
positive in every value this development constructs.  Exact rational
arithmetic stands in for IEEE doubles; all values reaching this type in the
embedded code are small decimal fractions, for which the two agree on every
comparison performed by the code. -/
structure PyFloat where
  num : ℤ
  den : ℕ
deriving DecidableEq

/-- Numeric equality test on `PyFloat` (Python `==` / `!=` on floats),
by cross multiplication. -/
def PyFloat.eqv (a b : PyFloat) : Bool :=
  a.num * (b.den : ℤ) = b.num * (a.den : ℤ)

/-- Python `int()` applied to a float: truncation toward zero. -/
def PyFloat.trunc (a : PyFloat) : ℤ :=
  if 0 ≤ a.num then a.num / (a.den : ℤ) else -((-a.num) / (a.den : ℤ))

/-- Python `str.strip()` on a character list: whitespace removed from both
ends. -/
def stripChars (s : List Char) : List Char :=
  ((s.dropWhile Char.isWhitespace).reverse.dropWhile Char.isWhitespace).reverse

/-- Fuel-driven worker for `replaceChars`. -/
def replaceCharsAux (pat repl : List Char) : ℕ → List Char → List Char
  | 0, s => s
  | _ + 1, [] => []
  | fuel + 1, c :: rest =>
      if pat.isPrefixOf (c :: rest) then
        repl ++ replaceCharsAux pat repl fuel ((c :: rest).drop pat.length)
      else
        c :: replaceCharsAux pat repl fuel rest

/-- Python `str.replace(pat, repl)` on character lists: every
non-overlapping occurrence of `pat`, scanned left to right, is replaced.
All uses in the embedded code have a non-empty `pat`. -/
def replaceChars (s pat repl : List Char) : List Char :=
  replaceCharsAux pat repl s.length s

/-- Characters of `s` before its first occurrence of `c`; this is
`s.split(c)[0]` in Python. -/
def beforeChar (c : Char) (s : List Char) : List Char :=
  s.takeWhile (fun d => d ≠ c)

/-- Decimal value of a digit list, accumulated left to right. -/
def digitsVal (cs : List Char) : ℤ :=
  cs.foldl (fun acc c => acc * 10 + (c.toNat - '0'.toNat : ℤ)) 0

/-- Model of Python `float(s)` on the strings the progress pipeline feeds
it: optional surrounding whitespace, an optional sign, decimal digits with
at most one point, at least one digit overall.  Parse failure stands for
`float()` raising `ValueError` (other Python float forms such as exponents
or `inf` are outside the modelled grammar). -/
def parsePyFloat (s : List Char) : Option PyFloat :=
  let t := stripChars s
  let signed := t ≠ [] ∧ t.headI = '-'
  let t1 := if t ≠ [] ∧ (t.headI = '-' ∨ t.headI = '+') then t.tail else t
  let intPart := t1.takeWhile Char.isDigit
  let rest := t1.drop intPart.length
  match rest with
  | [] =>
      if intPart = [] then none
      else some { num := (if signed then -1 else 1) * digitsVal intPart, den := 1 }
  | p :: fracPart =>
      if p = '.' ∧ fracPart.all Char.isDigit ∧ (intPart ≠ [] ∨ fracPart ≠ []) then
        some { num := (if signed then -1 else 1) * digitsVal (intPart ++ fracPart)
             , den := 10 ^ fracPart.length }
      else none

/-- One `JobManager.update_status` call as observed by the database: the
written status, the optional progress argument and the optional error
argument. -/
structure StoreWrite where
  status : JobStatus
  progress : Option ℤ
  error : Option String
deriving DecidableEq

/-- State carried by `execute_containerized_workflow` while it supervises
one job: the job row, the local variable `last_progress`, and the trace of
`update_status` calls issued so far (oldest first). -/
structure LoopState where
  row : JobRecord
  lastProgress : PyFloat
  writes : List StoreWrite
deriving DecidableEq

/-- Issue one `update_status` call: the row is updated and the call is
appended to the trace.  The wall clock passed to `update_status` is the
index of the call in the trace. -/
def applyWrite (st : LoopState) (status : JobStatus) (progress : Option ℤ)
    (error : Option String) : LoopState :=
  { st with
      row := update_status st.row status progress error st.writes.length
      writes := st.writes ++ [{ status := status, progress := progress, error := error }] }

/-- Python `line.startswith(tag)` on the strings of the progress
protocol. -/
def lineHasTag (tag : String) (line : String) : Bool :=
  tag.data.isPrefixOf line.data

/-- Percentage extracted from a `PROGRESS:` line by
`execute_containerized_workflow` (`web-interface/app.py`, lines 532-535):
the line with every `PROGRESS:` removed and stripped; if the result
contains `%`, the part before the first `%` is parsed as a float.  `none`
covers both the missing-`%` case and `float()` raising (the exception is
caught and the update skipped). -/
def progressValue (line : String) : Option PyFloat :=
  let progressText := stripChars (replaceChars line.data "PROGRESS:".data [])
  if progressText.any (fun c => c = '%') then
    parsePyFloat (beforeChar '%' progressText)
  else none

/-- Embedding of one iteration of the `async for progress_update in
progress_stream` loop of `execute_containerized_workflow`
(`web-interface/app.py`, lines 527-559).  Returns the state afterwards and
whether the loop keeps reading (`false` exactly on the `break` branches).
The store is written on a `PROGRESS:` line only when the parsed value
differs from `last_progress`. -/
def procLine (st : LoopState) (line : String) : LoopState × Bool :=
  if lineHasTag "PROGRESS:" line then
    match progressValue line with
    | some v =>
        if ¬ (v.eqv st.lastProgress) then
          ({ applyWrite st JobStatus.running (some v.trunc) none with lastProgress := v },
           true)
        else (st, true)
    | none => (st, true)
  else if lineHasTag "STATUS:" line then
    (st, true)
  else if lineHasTag "COMPLETED:" line then
    (applyWrite st JobStatus.completed (some 100) none, false)
  else if lineHasTag "ERROR:" line ∨ lineHasTag "FAILED:" line then
    let msg := stripChars
      (replaceChars (replaceChars line.data "ERROR:".data []) "FAILED:".data [])
    (applyWrite st JobStatus.failed none (some (String.mk msg)), false)
  else
    (st, true)

/-- The supervision loop over the whole output stream: lines are processed
in order until the stream closes or a terminal line breaks out. -/
def runLoop (st : LoopState) : List String → LoopState
  | [] => st
  | line :: rest =>
      match procLine st line with
      | (st2, true) => runLoop st2 rest
      | (st2, false) => st2

/-- Embedding of `execute_containerized_workflow` (`web-interface/app.py`,
lines 505-576) for a job that was just created: the job is transitioned to
running with progress 5; if Docker is unavailable the job is failed
immediately; otherwise the stream is supervised by `runLoop`, and if the
job is still running once the stream is exhausted it is completed with
progress 100 (the fallback at lines 561-565). -/
def execute_containerized_workflow (dockerAvailable : Bool)
    (stream : List String) : LoopState :=
  let st0 : LoopState :=
    { row := create_job, lastProgress := { num := 0, den := 1 }, writes := [] }
  let st1 := applyWrite st0 JobStatus.running (some 5) none
  if ¬ dockerAvailable then
    applyWrite st1 JobStatus.failed none (some "Docker not available or image not found")
  else
    let st2 := runLoop st1 stream
    if st2.row.status = JobStatus.running then
      applyWrite st2 JobStatus.completed (some 100) none
    else st2

/-- Decimal rendering of a natural number (worker for `intToStr`), with
fuel. -/
def natToStrAux : ℕ → ℕ → List Char → List Char
  | 0, _, acc => acc
  | fuel + 1, n, acc =>
      if n < 10 then Char.ofNat ('0'.toNat + n) :: acc
      else natToStrAux fuel (n / 10) (Char.ofNat ('0'.toNat + n % 10) :: acc)

/-- Model of Python `str()` on an integer, as interpolated into the
f-strings of the embedded code. -/
def intToStr : ℤ → String
  | Int.ofNat n => String.mk (natToStrAux (n + 1) n [])
  | Int.negSucc m => String.mk ('-' :: natToStrAux (m + 2) (m + 1) [])

/-- Embedding of the stream tail produced by
`WorkflowManager._execute_subprocess_workflow` once the container process
has exited (`web-interface/containers/workflow_manager.py`,
lines 948-955): exit code 0 yields a final progress line and a
`COMPLETED:` line, any other exit code yields an `ERROR:` line carrying
the exit code. -/
def subprocess_exit_yields (returnCode : ℤ) : List String :=
  if returnCode = 0 then
    ["PROGRESS: 100%", "COMPLETED: Workflow execution finished successfully"]
  else
    ["ERROR: Workflow failed with exit code " ++ intToStr returnCode]

example :
    (update_status create_job JobStatus.running (some 5) none 3).status =
      JobStatus.running := by decide

example : parsePyFloat "100".data = some { num := 100, den := 1 } := by decide

example : parsePyFloat "50.5".data = some { num := 505, den := 10 } := by decide

example : parsePyFloat "-5".data = some { num := -5, den := 1 } := by decide

example : parsePyFloat " 42 ".data = some { num := 42, den := 1 } := by decide

example : parsePyFloat "abc".data = none := by decide

example : parsePyFloat "".data = none := by decide

example : PyFloat.eqv { num := 505, den := 10 } { num := 1010, den := 20 } = true := by
  decide

example : PyFloat.trunc { num := 505, den := 10 } = 50 := by decide

example :
    replaceChars "PROGRESS: 50%".data "PROGRESS:".data [] = " 50%".data := by decide

example : stripChars " 50% ".data = "50%".data := by decide

example :
    (update_status (update_status create_job JobStatus.completed (some 100) none 1)
      JobStatus.running (some 10) none 2).status = JobStatus.running := by decide

/-- Value stored in `WorkflowManager.active_containers` for a running job:
either a Docker SDK container object (stored by `execute_workflow`,
`web-interface/containers/workflow_manager.py`, line 469), which has
`stop`/`remove` methods, or an `asyncio` subprocess object (stored by
`_execute_subprocess_workflow`, line 891), which has no `stop` attribute. -/
inductive ExecHandle where
  | dockerContainer
  | asyncProcess
deriving DecidableEq

/-- Embedding of `WorkflowManager.stop_job_container`
(`web-interface/containers/workflow_manager.py`, lines 650-665): with no
tracked handle it returns `False`; with a Docker container it stops and
removes it and deletes the map entry; with an `asyncio` subprocess,
`container.stop(timeout=10)` raises `AttributeError` (the object has no
`stop` method), the `except` branch returns `False`, and neither the
process termination nor the `del` is reached.  Returns the method's
boolean result and the `active_containers` entry afterwards. -/
def stop_job_container : Option ExecHandle → Bool × Option ExecHandle
  | none => (false, none)
  | some ExecHandle.dockerContainer => (true, none)
  | some ExecHandle.asyncProcess => (false, some ExecHandle.asyncProcess)

/-- Embedding of the `cancel_job` endpoint (`web-interface/app.py`,
lines 765-793): 404 for an unknown job, 400 for a job that is not running;
otherwise `WorkflowManager.stop_job_container` is attempted (its failure
is only logged) and `JobManager.cancel_job` finalizes the job.  Returns
the HTTP code, the job row afterwards, the `WorkflowManager`
`active_containers` entry afterwards, and the `JobManager`
`active_containers` membership afterwards. -/
def cancel_job_endpoint (job : Option JobRecord) (wmHandle : Option ExecHandle)
    (jmInActive : Bool) (now : ℕ) :
    ℕ × Option JobRecord × Option ExecHandle × Bool :=
  match job with
  | none => (404, none, wmHandle, jmInActive)
  | some rec =>
      if rec.status ≠ JobStatus.running then
        (400, some rec, wmHandle, jmInActive)
      else
        let stopResult := stop_job_container wmHandle
        match cancel_job (some rec) jmInActive now with
        | (true, job2, inActive2) => (200, job2, stopResult.2, inActive2)
        | (false, job2, inActive2) => (500, job2, stopResult.2, inActive2)

/-- Worker reconnect configuration (`WorkerConfig` in
`web-interface/containers/workflow_manager.py`, lines 53-62; defaults
`reconnect_attempts = 5`, `reconnect_delay = 10`). -/
structure WorkerConfig where
  reconnectAttempts : ℕ
  reconnectDelay : ℕ
deriving DecidableEq

/-- Number of worker restarts performed by the chain of
`DistributedWorkflowManager._monitor_worker_process` threads
(`web-interface/containers/workflow_manager.py`, lines 255-276), given the
exit codes of the successive worker processes.  Each monitor restarts the
worker via `start_worker_node` whenever the exit code is non-zero and the
configured `reconnect_attempts` is positive; no counter is kept or
decremented anywhere.  A zero exit code ends the chain. -/
def monitor_worker_restarts (cfg : WorkerConfig) : List ℤ → ℕ
  | [] => 0
  | code :: rest =>
      if code ≠ 0 ∧ 0 < cfg.reconnectAttempts then
        monitor_worker_restarts cfg rest + 1
      else 0

/-- Row of the `jobs` table as read by the retention queries: id, status,
`completed_at`, `dem_filename`. -/
structure CleanupJob where
  id : String
  status : JobStatus
  completedAt : Option ℕ
  demFilename : Option String
deriving DecidableEq

/-- Filesystem state seen by the retention code: sizes, in MB, of the
per-job results directories (keyed by job id) and of the uploaded DEM
files (keyed by filename).  A key that is absent is a path that does not
exist. -/
structure DataDirs where
  results : List (String × ℕ)
  uploads : List (String × ℕ)
deriving DecidableEq

/-- Size lookup in a keyed size list. -/
def lookupSize : List (String × ℕ) → String → Option ℕ
  | [], _ => none
  | (k, v) :: rest, key => if k = key then some v else lookupSize rest key

/-- Removal of a path from a keyed size list (`shutil.rmtree` /
`Path.unlink`). -/
def removeKey : List (String × ℕ) → String → List (String × ℕ)
  | [], _ => []
  | (k, v) :: rest, key =>
      if k = key then removeKey rest key else (k, v) :: removeKey rest key

/-- Selection predicate shared by both retention implementations: status
matches and `completed_at` is non-NULL and strictly before the cutoff. -/
def eligibleForCleanup (status : JobStatus) (cutoff : ℕ) (j : CleanupJob) : Bool :=
  decide (j.status = status) && match j.completedAt with
    | some t => decide (t < cutoff)
    | none => false

/-- Jobs selected by the retention queries of
`JobManager.cleanup_old_jobs` and `JobCleanupManager.get_jobs_for_cleanup`
for one category. -/
def selectCleanupJobs (db : List CleanupJob) (status : JobStatus) (cutoff : ℕ) :
    List CleanupJob :=
  db.filter (eligibleForCleanup status cutoff)

/-- Summary dictionary built by `JobManager.cleanup_old_jobs`
(`web-interface/app.py`, lines 286-292): counters and the reclaimed size
in MB. -/
structure CleanupStats where
  processedJobs : ℕ
  successfulCleaned : ℕ
  failedDeleted : ℕ
  spaceFreedMb : ℕ
deriving DecidableEq

/-- Initial summary of `JobManager.cleanup_old_jobs`. -/
def CleanupStats.init : CleanupStats :=
  { processedJobs := 0, successfulCleaned := 0, failedDeleted := 0, spaceFreedMb := 0 }

/-- One iteration of the successful-jobs loop of
`JobManager.cleanup_old_jobs` (`web-interface/app.py`, lines 313-322):
only a live run measures and removes the results directory (the size is
accumulated inside the `if not dry_run` branch), while the two counters
are incremented in either mode. -/
def appSuccessStep (dryRun : Bool) (acc : CleanupStats × DataDirs) (j : CleanupJob) :
    CleanupStats × DataDirs :=
  let step1 :=
    if ¬ dryRun then
      match lookupSize acc.2.results j.id with
      | some sz =>
          ({ acc.1 with spaceFreedMb := acc.1.spaceFreedMb + sz },
           { acc.2 with results := removeKey acc.2.results j.id })
      | none => acc
    else acc
  ({ step1.1 with
      successfulCleaned := step1.1.successfulCleaned + 1
      processedJobs := step1.1.processedJobs + 1 }, step1.2)

/-- One iteration of the failed-jobs loop of `JobManager.cleanup_old_jobs`
(`web-interface/app.py`, lines 334-353): a live run removes the results
directory, the uploaded DEM file and the database row, accumulating their
sizes; counters are incremented in either mode. -/
def appFailedStep (dryRun : Bool) (acc : CleanupStats × List CleanupJob × DataDirs)
    (j : CleanupJob) : CleanupStats × List CleanupJob × DataDirs :=
  let step1 :=
    if ¬ dryRun then
      let afterResults : CleanupStats × DataDirs :=
        match lookupSize acc.2.2.results j.id with
        | some sz =>
            ({ acc.1 with spaceFreedMb := acc.1.spaceFreedMb + sz },
             { acc.2.2 with results := removeKey acc.2.2.results j.id })
        | none => (acc.1, acc.2.2)
      let afterDem : CleanupStats × DataDirs :=
        match j.demFilename with
        | some f =>
            match lookupSize afterResults.2.uploads f with
            | some sz =>
                ({ afterResults.1 with
                    spaceFreedMb := afterResults.1.spaceFreedMb + sz },
                 { afterResults.2 with uploads := removeKey afterResults.2.uploads f })
            | none => afterResults
        | none => afterResults
      (afterDem.1, acc.2.1.filter (fun r => r.id ≠ j.id), afterDem.2)
    else acc
  ({ step1.1 with
      failedDeleted := step1.1.failedDeleted + 1
      processedJobs := step1.1.processedJobs + 1 }, step1.2)

/-- Embedding of `JobManager.cleanup_old_jobs` (`web-interface/app.py`,
lines 282-364).  The cutoff instants stand for `now - retention`; both
selections are computed from the database state at entry (the successful
pass deletes no rows, so this matches the code's two successive queries).
Returns the summary, the database afterwards, and the filesystem
afterwards. -/
def cleanup_old_jobs (db : List CleanupJob) (fs : DataDirs)
    (successCutoff failedCutoff : ℕ) (dryRun : Bool) :
    CleanupStats × List CleanupJob × DataDirs :=
  let successJobs := selectCleanupJobs db JobStatus.completed successCutoff
  let failedJobs := selectCleanupJobs db JobStatus.failed failedCutoff
  let afterSuccess := successJobs.foldl (appSuccessStep dryRun) (CleanupStats.init, fs)
  failedJobs.foldl (appFailedStep dryRun) (afterSuccess.1, db, afterSuccess.2)

/-- Per-job report built by `JobCleanupManager.cleanup_job_data`
(`web-interface/cleanup_jobs.py`, lines 137-147): whether data was
deleted, whether the configuration row is preserved, and the freed size in
MB. -/
structure ScriptJobStats where
  dataDeleted : Bool
  configPreserved : Bool
  sizeFreedMb : ℕ
deriving DecidableEq

/-- Embedding of `JobCleanupManager.cleanup_job_data`
(`web-interface/cleanup_jobs.py`, lines 134-202).  The reported size is
measured in both the dry and the live branch; only the live branch removes
the results directory, the uploaded DEM file and (when the configuration
is not kept) the database row.  Returns the per-job report, the filesystem
afterwards, and the database afterwards. -/
def script_cleanup_job_data (dryRun keepJobConfig : Bool) (j : CleanupJob)
    (fs : DataDirs) (db : List CleanupJob) :
    ScriptJobStats × DataDirs × List CleanupJob :=
  let resultsStep : ScriptJobStats × DataDirs :=
    match lookupSize fs.results j.id with
    | some sz =>
        ({ dataDeleted := true, configPreserved := keepJobConfig, sizeFreedMb := sz },
         if ¬ dryRun then { fs with results := removeKey fs.results j.id } else fs)
    | none =>
        ({ dataDeleted := false, configPreserved := keepJobConfig, sizeFreedMb := 0 }, fs)
  let demStep : ScriptJobStats × DataDirs :=
    match j.demFilename with
    | some f =>
        match lookupSize resultsStep.2.uploads f with
        | some sz =>
            ({ resultsStep.1 with sizeFreedMb := resultsStep.1.sizeFreedMb + sz },
             if ¬ dryRun then
               { resultsStep.2 with uploads := removeKey resultsStep.2.uploads f }
             else resultsStep.2)
        | none => resultsStep
    | none => resultsStep
  if ¬ keepJobConfig then
    ({ demStep.1 with configPreserved := false },
     demStep.2,
     if ¬ dryRun then db.filter (fun r => r.id ≠ j.id) else db)
  else
    (demStep.1, demStep.2, db)

/-- Lines of the progress protocol on which the supervision loop breaks. -/
def isTerminalLine (line : String) : Bool :=
  lineHasTag "COMPLETED:" line || lineHasTag "ERROR:" line || lineHasTag "FAILED:" line

/-- Prefix test on character lists fails when the heads differ. -/
theorem isPrefixOf_cons_ne {c d : Char} (ct cs : List Char) (h : (c == d) = false) :
    (c :: ct).isPrefixOf (d :: cs) = false := by
  simp [List.isPrefixOf, h]

/-- Every list is a prefix of itself followed by anything. -/
theorem isPrefixOf_self_append (a x : List Char) : a.isPrefixOf (a ++ x) = true := by
  induction a with
  | nil => simp [List.isPrefixOf]
  | cons c ct ih => simp [List.isPrefixOf, ih]

/-- Processing a non-terminal line never breaks the loop, and keeps the
status of a running job at running. -/
theorem procLine_not_terminal (st : LoopState) (line : String)
    (h : isTerminalLine line = false) :
    (procLine st line).2 = true ∧
      (st.row.status = JobStatus.running →
        (procLine st line).1.row.status = JobStatus.running) := by
  simp only [isTerminalLine, Bool.or_eq_false_iff] at h
  obtain ⟨⟨hC, hE⟩, hF⟩ := h
  unfold procLine
  by_cases hP : lineHasTag "PROGRESS:" line
  · simp only [hP, if_true]
    cases hv : progressValue line with
    | none => exact ⟨rfl, fun hst => hst⟩
    | some v =>
        by_cases he : v.eqv st.lastProgress
        · simp [he]
        · simp [he, applyWrite, update_status]
  · by_cases hS : lineHasTag "STATUS:" line
    · simp [hP, hS]
    · simp [hP, hS, hC, hE, hF]

/-- One unfolding step of the loop when the processed line keeps
reading. -/
theorem runLoop_continue (st st2 : LoopState) (line : String) (rest : List String)
    (h : procLine st line = (st2, true)) :
    runLoop st (line :: rest) = runLoop st2 rest := by
  simp only [runLoop, h]

/-- One unfolding step of the loop when the processed line breaks out. -/
theorem runLoop_break (st st2 : LoopState) (line : String) (rest : List String)
    (h : procLine st line = (st2, false)) :
    runLoop st (line :: rest) = st2 := by
  simp only [runLoop, h]

/-- The supervision loop distributes over append as long as the first part
contains no terminal line. -/
theorem runLoop_append (st : LoopState) (xs ys : List String)
    (h : ∀ l ∈ xs, isTerminalLine l = false) :
    runLoop st (xs ++ ys) = runLoop (runLoop st xs) ys := by
  induction xs generalizing st with
  | nil => simp [runLoop]
  | cons x xt ih =>
      have hx := (procLine_not_terminal st x (h x (by simp))).1
      cases hpl : procLine st x with
      | mk st2 b =>
          rw [hpl] at hx
          subst hx
          simpa [runLoop, hpl] using ih st2 (fun l hl => h l (by simp [hl]))

/-- A stream of non-terminal lines keeps a running job running. -/
theorem runLoop_status_running (st : LoopState) (xs : List String)
    (h : ∀ l ∈ xs, isTerminalLine l = false)
    (hst : st.row.status = JobStatus.running) :
    (runLoop st xs).row.status = JobStatus.running := by
  induction xs generalizing st with
  | nil => simpa [runLoop] using hst
  | cons x xt ih =>
      obtain ⟨hcont, hstat⟩ := procLine_not_terminal st x (h x (by simp))
      cases hpl : procLine st x with
      | mk st2 b =>
          rw [hpl] at hcont hstat
          subst hcont
          simpa [runLoop, hpl] using
            ih st2 (fun l hl => h l (by simp [hl])) (hstat hst)

/-- C2 (counterexample): progress is neither monotone nor clamped while
RUNNING.  On the stream `PROGRESS: 50%`, `PROGRESS: 30%`, `PROGRESS: 150%`
the store receives progress 50, then the smaller value 30, then the
out-of-range value 150, before the end-of-stream fallback completes the
job with 100. -/
theorem progress_not_monotone_not_clamped :
    (execute_containerized_workflow true
        ["PROGRESS: 50%", "PROGRESS: 30%", "PROGRESS: 150%"]).writes =
      [{ status := JobStatus.running, progress := some 5, error := none },
       { status := JobStatus.running, progress := some 50, error := none },
       { status := JobStatus.running, progress := some 30, error := none },
       { status := JobStatus.running, progress := some 150, error := none },
       { status := JobStatus.completed, progress := some 100, error := none }] ∧
      (30 : ℤ) < 50 ∧ (100 : ℤ) < 150 := by
  decide

/-- A `COMPLETED:` line makes the supervision loop write status completed
with progress 100 and stop reading. -/
theorem runLoop_completed_line (st : LoopState) (line : String)
    (rest : List String) (h : lineHasTag "COMPLETED:" line = true) :
    runLoop st (line :: rest) = applyWrite st JobStatus.completed (some 100) none ∧
      (runLoop st (line :: rest)).row.progress = 100 ∧
      (runLoop st (line :: rest)).row.status = JobStatus.completed := by
  have hdata : ∃ cs, line.data = 'C' :: cs := by
    unfold lineHasTag at h
    cases hl : line.data with
    | nil => rw [hl] at h; simp [List.isPrefixOf] at h
    | cons c cs =>
        rw [hl] at h
        have : ('C' == c) = true := by
          by_contra hne
          rw [show "COMPLETED:".data = 'C' :: "OMPLETED:".data from by decide,
            isPrefixOf_cons_ne _ _ (Bool.not_eq_true _ ▸ hne)] at h
          exact Bool.false_ne_true h
        exact ⟨cs, by rw [eq_of_beq this]⟩
  obtain ⟨cs, hdata⟩ := hdata
  have hP : lineHasTag "PROGRESS:" line = false := by
    unfold lineHasTag
    rw [hdata, show "PROGRESS:".data = 'P' :: "ROGRESS:".data from by decide]
    exact isPrefixOf_cons_ne _ _ (by decide)
  have hS : lineHasTag "STATUS:" line = false := by
    unfold lineHasTag
    rw [hdata, show "STATUS:".data = 'S' :: "TATUS:".data from by decide]
    exact isPrefixOf_cons_ne _ _ (by decide)
  have hrun : runLoop st (line :: rest) =
      applyWrite st JobStatus.completed (some 100) none := by
    simp [runLoop, procLine, hP, hS, h]
  exact ⟨hrun, by simp [hrun, applyWrite, update_status],
    by simp [hrun, applyWrite, update_status]⟩

/-- C2 (amended): a `COMPLETED:` line makes the supervision loop write
status completed with progress exactly 100 and stop reading, so any later
line of the stream — including a late `PROGRESS:` line — is not applied
and the stored progress stays 100. -/
theorem completed_line_stops_loop (st : LoopState) (line : String)
    (rest : List String) (h : lineHasTag "COMPLETED:" line = true) :
    runLoop st (line :: rest) = applyWrite st JobStatus.completed (some 100) none ∧
      (runLoop st (line :: rest)).row.progress = 100 ∧
      (runLoop st (line :: rest)).row.status = JobStatus.completed :=
  runLoop_completed_line st line rest h

/-- C2 (witness): the amended statement evaluated on the initial loop
state, a concrete `COMPLETED:` line, and a late `PROGRESS: 10%` line. -/
theorem completed_line_stops_loop_witness :
    runLoop
        { row := create_job, lastProgress := { num := 0, den := 1 }, writes := [] }
        ["COMPLETED: done", "PROGRESS: 10%"] =
      applyWrite
        { row := create_job, lastProgress := { num := 0, den := 1 }, writes := [] }
        JobStatus.completed (some 100) none :=
  (completed_line_stops_loop
    { row := create_job, lastProgress := { num := 0, den := 1 }, writes := [] }
    "COMPLETED: done" ["PROGRESS: 10%"] (by decide)).1

/-- C6 (counterexample): the guard on `PROGRESS:` lines is only "differs
from the last applied value", not "greater than 0 and differs": after
`PROGRESS: 50%`, the line `PROGRESS: 0%` produces a store write carrying
progress 0.  The true half of the claim also shows: a duplicated
`PROGRESS: 42%` line produces exactly one store write. -/
theorem progress_zero_written_after_nonzero :
    (execute_containerized_workflow true ["PROGRESS: 50%", "PROGRESS: 0%"]).writes =
      [{ status := JobStatus.running, progress := some 5, error := none },
       { status := JobStatus.running, progress := some 50, error := none },
       { status := JobStatus.running, progress := some 0, error := none },
       { status := JobStatus.completed, progress := some 100, error := none }] ∧
      (execute_containerized_workflow true ["PROGRESS: 42%", "PROGRESS: 42%"]).writes =
        [{ status := JobStatus.running, progress := some 5, error := none },
         { status := JobStatus.running, progress := some 42, error := none },
         { status := JobStatus.completed, progress := some 100, error := none }] := by
  decide

/-- C6 (amended): on a `PROGRESS:` line whose percentage parses to `v`,
the supervision loop keeps reading and issues exactly one store write when
`v` differs from the last applied value and none when it is equal; the
remembered last value is updated accordingly. -/
theorem progress_write_iff_changed (st : LoopState) (line : String) (v : PyFloat)
    (htag : lineHasTag "PROGRESS:" line = true)
    (hval : progressValue line = some v) :
    (procLine st line).2 = true ∧
      (procLine st line).1.writes = st.writes ++
        (if v.eqv st.lastProgress then []
         else [{ status := JobStatus.running, progress := some v.trunc,
                 error := none }]) ∧
      (procLine st line).1.lastProgress =
        (if v.eqv st.lastProgress then st.lastProgress else v) := by
  by_cases he : v.eqv st.lastProgress
  · simp [procLine, htag, hval, he]
  · simp [procLine, htag, hval, he, applyWrite]

/-- C6 (witness): the amended statement evaluated after a 50 percent
update, on a `PROGRESS: 0%` line. -/
theorem progress_write_iff_changed_witness :
    (procLine
        { row := update_status create_job JobStatus.running (some 50) none 0
        , lastProgress := { num := 50, den := 1 }, writes := [] }
        "PROGRESS: 0%").1.writes =
      [{ status := JobStatus.running,
         progress := some (PyFloat.trunc { num := 0, den := 1 }), error := none }] := by
  have h := progress_write_iff_changed
    { row := update_status create_job JobStatus.running (some 50) none 0
    , lastProgress := { num := 50, den := 1 }, writes := [] }
    "PROGRESS: 0%" { num := 0, den := 1 } (by decide) (by decide)
  rw [h.2.1]
  decide

/-- Digit characters appended by `natToStrAux` are neither whitespace nor
a colon. -/
theorem plain_digit_char (k : ℕ) (h : k < 10) :
    (Char.ofNat ('0'.toNat + k)).isWhitespace = false ∧
      Char.ofNat ('0'.toNat + k) ≠ ':' := by
  interval_cases k <;> exact ⟨by decide, by decide⟩

/-- Every character produced by `natToStrAux` over a clean accumulator is
neither whitespace nor a colon. -/
theorem natToStrAux_plain (fuel : ℕ) :
    ∀ (n : ℕ) (acc : List Char),
      (∀ c ∈ acc, c.isWhitespace = false ∧ c ≠ ':') →
      ∀ c ∈ natToStrAux fuel n acc, c.isWhitespace = false ∧ c ≠ ':' := by
  induction fuel with
  | zero => intro n acc hacc; simpa [natToStrAux] using hacc
  | succ fuel ih =>
      intro n acc hacc c hc
      by_cases hn : n < 10
      · simp only [natToStrAux, if_pos hn] at hc
        rcases List.mem_cons.mp hc with hc | hc
        · subst hc; exact plain_digit_char n hn
        · exact hacc c hc
      · simp only [natToStrAux, if_neg hn] at hc
        refine ih (n / 10) _ ?_ c hc
        intro d hd
        rcases List.mem_cons.mp hd with hd | hd
        · subst hd; exact plain_digit_char (n % 10) (Nat.mod_lt _ (by norm_num))
        · exact hacc d hd

/-- `natToStrAux` never shrinks a non-empty accumulator to nothing. -/
theorem natToStrAux_ne_nil (fuel : ℕ) :
    ∀ (n : ℕ) (acc : List Char), acc ≠ [] → natToStrAux fuel n acc ≠ [] := by
  induction fuel with
  | zero => intro n acc hacc; simpa [natToStrAux] using hacc
  | succ fuel ih =>
      intro n acc hacc
      by_cases hn : n < 10
      · simp [natToStrAux, hn]
      · simp only [natToStrAux, if_neg hn]
        exact ih _ _ (by simp)

/-- The rendering of an integer is non-empty and contains neither
whitespace nor a colon. -/
theorem intToStr_plain (code : ℤ) :
    (intToStr code).data ≠ [] ∧
      ∀ c ∈ (intToStr code).data, c.isWhitespace = false ∧ c ≠ ':' := by
  cases code with
  | ofNat n =>
      refine ⟨?_, natToStrAux_plain _ _ _ (by simp)⟩
      show natToStrAux (n + 1) n [] ≠ []
      by_cases hn : n < 10
      · simp [natToStrAux, hn]
      · simp only [natToStrAux, if_neg hn]
        exact natToStrAux_ne_nil _ _ _ (by simp)
  | negSucc m =>
      refine ⟨by simp [intToStr], ?_⟩
      intro c hc
      simp only [intToStr] at hc
      rcases List.mem_cons.mp hc with hc | hc
      · subst hc; exact ⟨by decide, by decide⟩
      · exact natToStrAux_plain _ _ _ (by simp) c hc

/-- Replacing a pattern that contains a colon in a string without colons
does nothing, for any amount of fuel. -/
theorem replaceCharsAux_no_colon (pat repl : List Char) (hp : ':' ∈ pat)
    (fuel : ℕ) :
    ∀ s : List Char, (∀ c ∈ s, c ≠ ':') → replaceCharsAux pat repl fuel s = s := by
  induction fuel with
  | zero => intro s _; rfl
  | succ fuel ih =>
      intro s hs
      cases s with
      | nil => rfl
      | cons c rest =>
          have hpre : pat.isPrefixOf (c :: rest) = false := by
            by_contra hb
            have hmem : (':' : Char) ∈ c :: rest :=
              (List.isPrefixOf_iff_prefix.mp (Bool.not_eq_false _ ▸ hb)).subset hp
            exact hs ':' hmem rfl
          simp only [replaceCharsAux, hpre, Bool.false_eq_true, if_false]
          rw [ih rest (fun d hd => hs d (by simp [hd]))]

/-- Replacing a colon-bearing pattern in a colon-free string does
nothing. -/
theorem replaceChars_no_colon (s pat repl : List Char) (hp : ':' ∈ pat)
    (hs : ∀ c ∈ s, c ≠ ':') : replaceChars s pat repl = s :=
  replaceCharsAux_no_colon pat repl hp s.length s hs

/-- Replacing a colon-bearing tag by nothing in "tag followed by colon-free
text" strips exactly the tag. -/
theorem replaceChars_tag (p : Char) (pt tail : List Char) (hp : ':' ∈ p :: pt)
    (htail : ∀ c ∈ tail, c ≠ ':') :
    replaceChars ((p :: pt) ++ tail) (p :: pt) [] = tail := by
  have hcons : (p :: pt) ++ tail = p :: (pt ++ tail) := rfl
  unfold replaceChars
  rw [hcons]
  have hlen : (p :: (pt ++ tail)).length = (pt ++ tail).length + 1 := by simp
  rw [hlen]
  have hpre : (p :: pt).isPrefixOf (p :: (pt ++ tail)) = true := by
    rw [← hcons]; exact isPrefixOf_self_append _ _
  simp only [replaceCharsAux, hpre, if_true, List.nil_append]
  have hdrop : (p :: (pt ++ tail)).drop (p :: pt).length = tail := by
    rw [← hcons]; exact List.drop_left _ _
  rw [hdrop]
  exact replaceCharsAux_no_colon _ _ hp _ tail htail

/-- Stripping text that ends in a non-empty run of non-whitespace
characters only removes leading whitespace. -/
theorem stripChars_append_plain (a d : List Char) (hd : d ≠ [])
    (hplain : ∀ c ∈ d, c.isWhitespace = false) :
    stripChars (a ++ d) = (a.dropWhile Char.isWhitespace) ++ d := by
  have hdw : d.dropWhile Char.isWhitespace = d := by
    cases d with
    | nil => rfl
    | cons c t => simp [List.dropWhile_cons, hplain c (by simp)]
  have hfront : (a ++ d).dropWhile Char.isWhitespace =
      (a.dropWhile Char.isWhitespace) ++ d := by
    rw [List.dropWhile_append]
    by_cases he : (a.dropWhile Char.isWhitespace).isEmpty
    · rw [if_pos he, hdw, List.isEmpty_iff.mp he, List.nil_append]
    · rw [if_neg he]
  obtain ⟨c, t, hrev⟩ : ∃ c t, d.reverse = c :: t := by
    cases hr : d.reverse with
    | nil => exact absurd (by simpa using congrArg List.reverse hr) hd
    | cons c t => exact ⟨c, t, rfl⟩
  have hcmem : c ∈ d := by
    have : c ∈ d.reverse := by simp [hrev]
    simpa using this
  have hback : ((a.dropWhile Char.isWhitespace) ++ d).reverse.dropWhile
      Char.isWhitespace = ((a.dropWhile Char.isWhitespace) ++ d).reverse := by
    rw [List.reverse_append, hrev, List.cons_append, List.dropWhile_cons]
    simp [hplain c hcmem]
  unfold stripChars
  rw [hfront, hback, List.reverse_reverse]

/-- The workflow executor with Docker available, written without the
intermediate let bindings. -/
theorem execute_true_eq (stream : List String) :
    execute_containerized_workflow true stream =
      (if (runLoop (applyWrite
            { row := create_job, lastProgress := { num := 0, den := 1 }, writes := [] }
            JobStatus.running (some 5) none) stream).row.status = JobStatus.running
       then applyWrite (runLoop (applyWrite
            { row := create_job, lastProgress := { num := 0, den := 1 }, writes := [] }
            JobStatus.running (some 5) none) stream) JobStatus.completed (some 100) none
       else runLoop (applyWrite
            { row := create_job, lastProgress := { num := 0, den := 1 }, writes := [] }
            JobStatus.running (some 5) none) stream) := rfl

/-- C7: after the output stream closes, a stream bearing no terminal line
is finalized as completed with progress 100 by the fallback; the
subprocess execution path appends, for exit code 0, yields that finalize
the job as completed with progress 100, and for a non-zero exit code an
`ERROR:` yield that finalizes the job as failed with an error message
carrying the exit code number. -/
theorem exit_code_finalization (pre : List String) (code : ℤ)
    (hpre : ∀ l ∈ pre, isTerminalLine l = false) :
    ((execute_containerized_workflow true pre).row.status = JobStatus.completed ∧
      (execute_containerized_workflow true pre).row.progress = 100) ∧
    (code = 0 →
      (execute_containerized_workflow true
          (pre ++ subprocess_exit_yields code)).row.status = JobStatus.completed ∧
        (execute_containerized_workflow true
          (pre ++ subprocess_exit_yields code)).row.progress = 100) ∧
    (code ≠ 0 →
      (execute_containerized_workflow true
          (pre ++ subprocess_exit_yields code)).row.status = JobStatus.failed ∧
        (execute_containerized_workflow true
          (pre ++ subprocess_exit_yields code)).row.errorMessage =
          some ("Workflow failed with exit code " ++ intToStr code)) := by
  have hst1 : (applyWrite
      { row := create_job, lastProgress := { num := 0, den := 1 }, writes := [] }
      JobStatus.running (some 5) none).row.status = JobStatus.running := by decide
  have hrun2 := runLoop_status_running _ pre hpre hst1
  refine ⟨?_, ?_, ?_⟩
  · rw [execute_true_eq, if_pos hrun2]
    exact ⟨by simp [applyWrite, update_status], by simp [applyWrite, update_status]⟩
  · intro hc
    subst hc
    have hyields : subprocess_exit_yields 0 =
        ["PROGRESS: 100%", "COMPLETED: Workflow execution finished successfully"] := by
      simp [subprocess_exit_yields]
    rw [execute_true_eq, hyields, runLoop_append _ pre _ hpre]
    obtain ⟨hcont, hstat⟩ := procLine_not_terminal (runLoop _ pre) "PROGRESS: 100%"
      (by decide)
    cases hpl : procLine (runLoop (applyWrite
        { row := create_job, lastProgress := { num := 0, den := 1 }, writes := [] }
        JobStatus.running (some 5) none) pre) "PROGRESS: 100%" with
    | mk st3 b =>
        rw [hpl] at hcont hstat
        subst hcont
        have hfin := runLoop_completed_line st3
          "COMPLETED: Workflow execution finished successfully" [] (by decide)
        have hloop : runLoop (runLoop (applyWrite
            { row := create_job, lastProgress := { num := 0, den := 1 }, writes := [] }
            JobStatus.running (some 5) none) pre)
            ["PROGRESS: 100%", "COMPLETED: Workflow execution finished successfully"] =
            applyWrite st3 JobStatus.completed (some 100) none := by
          rw [runLoop_continue _ _ _ _ hpl]
          exact hfin.1
        rw [hloop]
        have hterm : (applyWrite st3 JobStatus.completed (some 100) none).row.status =
            JobStatus.completed := by simp [applyWrite, update_status]
        rw [if_neg (by simp [hterm])]
        exact ⟨hterm, by simp [applyWrite, update_status]⟩
  · intro hc
    have hyields : subprocess_exit_yields code =
        ["ERROR: Workflow failed with exit code " ++ intToStr code] := by
      simp [subprocess_exit_yields, hc]
    obtain ⟨hdig_ne, hdig_plain⟩ := intToStr_plain code
    have hMplain : ∀ c ∈ " Workflow failed with exit code ".data ++
        (intToStr code).data, c ≠ ':' := by
      intro c hcm
      rcases List.mem_append.mp hcm with h | h
      · exact (by decide : ∀ c ∈ " Workflow failed with exit code ".data, c ≠ ':') c h
      · exact (hdig_plain c h).2
    have hLdata : ("ERROR: Workflow failed with exit code " ++ intToStr code).data =
        "ERROR:".data ++ (" Workflow failed with exit code ".data ++
          (intToStr code).data) := by
      rw [String.data_append,
        show "ERROR: Workflow failed with exit code ".data =
          "ERROR:".data ++ " Workflow failed with exit code ".data from by decide,
        List.append_assoc]
    have hP : lineHasTag "PROGRESS:"
        ("ERROR: Workflow failed with exit code " ++ intToStr code) = false := by
      unfold lineHasTag
      rw [hLdata, show "ERROR:".data = 'E' :: "RROR:".data from by decide,
        List.cons_append, show "PROGRESS:".data = 'P' :: "ROGRESS:".data from by decide]
      exact isPrefixOf_cons_ne _ _ (by decide)
    have hS : lineHasTag "STATUS:"
        ("ERROR: Workflow failed with exit code " ++ intToStr code) = false := by
      unfold lineHasTag
      rw [hLdata, show "ERROR:".data = 'E' :: "RROR:".data from by decide,
        List.cons_append, show "STATUS:".data = 'S' :: "TATUS:".data from by decide]
      exact isPrefixOf_cons_ne _ _ (by decide)
    have hCm : lineHasTag "COMPLETED:"
        ("ERROR: Workflow failed with exit code " ++ intToStr code) = false := by
      unfold lineHasTag
      rw [hLdata, show "ERROR:".data = 'E' :: "RROR:".data from by decide,
        List.cons_append,
        show "COMPLETED:".data = 'C' :: "OMPLETED:".data from by decide]
      exact isPrefixOf_cons_ne _ _ (by decide)
    have hE : lineHasTag "ERROR:"
        ("ERROR: Workflow failed with exit code " ++ intToStr code) = true := by
      unfold lineHasTag
      rw [hLdata]
      exact isPrefixOf_self_append _ _
    have hmsg : stripChars (replaceChars (replaceChars
        ("ERROR: Workflow failed with exit code " ++ intToStr code).data
        "ERROR:".data []) "FAILED:".data []) =
        "Workflow failed with exit code ".data ++ (intToStr code).data := by
      rw [hLdata, show "ERROR:".data = 'E' :: "RROR:".data from by decide,
        replaceChars_tag 'E' "RROR:".data _ (by decide) hMplain,
        replaceChars_no_colon _ _ _ (by decide) hMplain,
        stripChars_append_plain " Workflow failed with exit code ".data
          (intToStr code).data hdig_ne (fun c h => (hdig_plain c h).1),
        show " Workflow failed with exit code ".data.dropWhile Char.isWhitespace =
          "Workflow failed with exit code ".data from by decide]
    have hproc : ∀ st : LoopState,
        procLine st ("ERROR: Workflow failed with exit code " ++ intToStr code) =
          (applyWrite st JobStatus.failed none
            (some ("Workflow failed with exit code " ++ intToStr code)), false) := by
      intro st
      unfold procLine
      rw [hP, hS, hCm, hE]
      simp only [Bool.false_eq_true, if_false, eq_self_iff_true, if_true, true_or]
      rw [hmsg]
      rfl
    have hlast : runLoop (runLoop (applyWrite
        { row := create_job, lastProgress := { num := 0, den := 1 }, writes := [] }
        JobStatus.running (some 5) none) pre)
        ["ERROR: Workflow failed with exit code " ++ intToStr code] =
        applyWrite (runLoop (applyWrite
          { row := create_job, lastProgress := { num := 0, den := 1 }, writes := [] }
          JobStatus.running (some 5) none) pre) JobStatus.failed none
          (some ("Workflow failed with exit code " ++ intToStr code)) :=
      runLoop_break _ _ _ _ (hproc _)
    rw [execute_true_eq, hyields, runLoop_append _ pre _ hpre, hlast]
    have hterm : (applyWrite (runLoop (applyWrite
        { row := create_job, lastProgress := { num := 0, den := 1 }, writes := [] }
        JobStatus.running (some 5) none) pre) JobStatus.failed none
        (some ("Workflow failed with exit code " ++ intToStr code))).row.status =
        JobStatus.failed := by simp [applyWrite, update_status]
    rw [if_neg (by simp [hterm])]
    exact ⟨hterm, by simp [applyWrite, update_status]⟩

/-- C7 (witness): a stream with one status line; exit code 137 yields a
failed job whose error message contains "137", and the same stream without
exit yields is completed by the fallback. -/
theorem exit_code_finalization_witness :
    (execute_containerized_workflow true
        (["STATUS: starting"] ++ subprocess_exit_yields 137)).row.status =
      JobStatus.failed ∧
    (execute_containerized_workflow true
        (["STATUS: starting"] ++ subprocess_exit_yields 137)).row.errorMessage =
      some ("Workflow failed with exit code " ++ intToStr 137) ∧
    intToStr 137 = "137" ∧
    (execute_containerized_workflow true ["STATUS: starting"]).row.status =
      JobStatus.completed :=
  have h := exit_code_finalization ["STATUS: starting"] 137 (by decide)
  ⟨(h.2.2 (by decide)).1, (h.2.2 (by decide)).2, by decide, h.1.1⟩

/-- C1 (counterexample): the store does not protect terminal states.  After
`update_status` has put a job in the terminal status `completed`, a further
`update_status` call moves its status back to `running`, contradicting
"once the status is COMPLETED or FAILED no subsequent update_status call
changes the status field again". -/
theorem terminal_status_not_protected :
    (update_status create_job JobStatus.completed (some 100) none 1).status =
        JobStatus.completed ∧
      (update_status (update_status create_job JobStatus.completed (some 100) none 1)
          JobStatus.running (some 10) none 2).status = JobStatus.running := by
  decide

/-- C1 (amended): `update_status` writes the status field unconditionally —
the resulting status is always its argument, terminal or not — while
`cancel_job` is a no-op on any job that is not running. -/
theorem update_status_unconditional (rec : JobRecord) (st : JobStatus)
    (prog : Option ℤ) (err : Option String) (now : ℕ) (b : Bool)
    (h : rec.status ≠ JobStatus.running) :
    (update_status rec st prog err now).status = st ∧
      cancel_job (some rec) b now = (false, some rec, b) := by
  refine ⟨?_, ?_⟩
  · cases st <;> simp [update_status]
  · simp [cancel_job, h]

/-- C1 (witness): the amended statement evaluated on a completed job. -/
theorem update_status_unconditional_witness :
    (update_status (update_status create_job JobStatus.completed (some 100) none 1)
        JobStatus.running (some 10) none 2).status = JobStatus.running ∧
      cancel_job (some (update_status create_job JobStatus.completed (some 100) none 1))
          true 2 =
        (false, some (update_status create_job JobStatus.completed (some 100) none 1),
         true) :=
  update_status_unconditional
    (update_status create_job JobStatus.completed (some 100) none 1)
    JobStatus.running (some 10) none 2 true (by decide)

/-- C3 (counterexample): `completed_at` does not have first-write-wins
semantics.  A second terminal write overwrites the timestamp recorded by
the first one. -/
theorem completed_at_overwritten :
    (update_status create_job JobStatus.completed (some 100) none 5).completedAt =
        some 5 ∧
      (update_status (update_status create_job JobStatus.completed (some 100) none 5)
          JobStatus.completed (some 100) none 9).completedAt = some 9 := by
  decide

/-- C3 (amended): `started_at` is written with set-if-unset semantics by
every `running` write (a second `running` update does not overwrite it),
and is touched by no terminal write; `completed_at` is written by every
terminal write, overwriting any previous value, and is touched by no
`running` write. -/
theorem timestamp_write_semantics (rec : JobRecord) (prog : Option ℤ)
    (err : Option String) (now : ℕ) :
    (update_status rec JobStatus.running prog err now).startedAt =
        some (rec.startedAt.getD now) ∧
      (update_status rec JobStatus.running prog err now).completedAt =
        rec.completedAt ∧
      (update_status rec JobStatus.completed prog err now).completedAt = some now ∧
      (update_status rec JobStatus.failed prog err now).completedAt = some now ∧
      (update_status rec JobStatus.completed prog err now).startedAt = rec.startedAt ∧
      (update_status rec JobStatus.failed prog err now).startedAt = rec.startedAt := by
  simp [update_status]

/-- C4 (counterexample): deletion does not require a terminal status.  A
freshly created PENDING job is deleted successfully, with its record
removed and its artifacts cleared, contradicting "delete succeeds only
when the job's status is in COMPLETED, FAILED". -/
theorem pending_job_delete_succeeds :
    create_job.status = JobStatus.pending ∧
      delete_job (some create_job)
          { resultsDir := true, resultZip := true, uploadCount := 1 } false "" =
        ((true, ""), none, JobArtifacts.cleared) := by
  decide

/-- C4 (amended): deleting a RUNNING job always fails with the
invalid-state error (HTTP 400) and leaves the record and artifacts
unchanged; deleting any job that is not RUNNING — PENDING included —
removes the record, and when no filesystem error occurs during artifact
cleanup it clears all associated artifacts and returns success
(HTTP 200). -/
theorem delete_job_requires_not_running (rec : JobRecord) (fs : JobArtifacts)
    (errText : String) :
    (rec.status = JobStatus.running →
        delete_job (some rec) fs true errText =
            ((false, "Cannot delete running job"), some rec, fs) ∧
          delete_job_endpoint_code (false, "Cannot delete running job") = 400) ∧
      (rec.status ≠ JobStatus.running →
        delete_job (some rec) fs false errText =
            ((true, ""), none, JobArtifacts.cleared) ∧
          delete_job_endpoint_code (true, "") = 200) := by
  refine ⟨fun hrun => ⟨?_, by decide⟩, fun hrun => ⟨?_, by decide⟩⟩
  · simp [delete_job, hrun]
  · simp [delete_job, hrun]

/-- C4 (witness): the amended statement evaluated on a running and on a
completed job. -/
theorem delete_job_requires_not_running_witness :
    delete_job (some (update_status create_job JobStatus.running (some 5) none 0))
        { resultsDir := true, resultZip := false, uploadCount := 0 } true "disk" =
      ((false, "Cannot delete running job"),
       some (update_status create_job JobStatus.running (some 5) none 0),
       { resultsDir := true, resultZip := false, uploadCount := 0 }) ∧
    delete_job (some (update_status create_job JobStatus.completed (some 100) none 1))
        { resultsDir := true, resultZip := false, uploadCount := 0 } false "" =
      ((true, ""), none, JobArtifacts.cleared) :=
  ⟨((delete_job_requires_not_running
      (update_status create_job JobStatus.running (some 5) none 0)
      { resultsDir := true, resultZip := false, uploadCount := 0 } "disk").1
      (by decide)).1,
   ((delete_job_requires_not_running
      (update_status create_job JobStatus.completed (some 100) none 1)
      { resultsDir := true, resultZip := false, uploadCount := 0 } "").2
      (by decide)).1⟩

/-- C10: `delete_job` removes the database row before attempting artifact
cleanup, so when the cleanup raises a filesystem error the call reports
failure even though the record is already gone — a failure return does not
imply the store is unchanged. -/
theorem delete_job_not_atomic (rec : JobRecord) (fs : JobArtifacts)
    (errText : String) (hstatus : rec.status ≠ JobStatus.running)
    (hdir : fs.resultsDir = true) :
    delete_job (some rec) fs true errText =
      ((false, "Database or filesystem error: " ++ errText), none, fs) := by
  simp [delete_job, hstatus, hdir]

/-- C10 (witness): a completed job whose results-directory removal raises:
the call fails but the record is removed. -/
theorem delete_job_not_atomic_witness :
    delete_job (some (update_status create_job JobStatus.completed (some 100) none 1))
        { resultsDir := true, resultZip := false, uploadCount := 0 } true "disk full" =
      ((false, "Database or filesystem error: disk full"), none,
       { resultsDir := true, resultZip := false, uploadCount := 0 }) :=
  delete_job_not_atomic
    (update_status create_job JobStatus.completed (some 100) none 1)
    { resultsDir := true, resultZip := false, uploadCount := 0 } "disk full"
    (by decide) (by decide)

/-- C5: evaluation of the cancel endpoint at the failing input (a running
job whose execution unit is the `asyncio` subprocess of subprocess mode):
the endpoint returns HTTP 200 and the job is finalized as failed with the
user-cancellation message, but `stop_job_container` fails
(`container.stop` does not exist on the subprocess object), the process is
never terminated and its `active_containers` entry survives. -/
theorem cancel_endpoint_orphans_subprocess :
    stop_job_container (some ExecHandle.asyncProcess) =
        (false, some ExecHandle.asyncProcess) ∧
      cancel_job_endpoint
          (some (update_status create_job JobStatus.running (some 5) none 0))
          (some ExecHandle.asyncProcess) false 1 =
        (200,
         some (update_status (update_status create_job JobStatus.running (some 5) none 0)
            JobStatus.failed none (some "Job cancelled by user") 1),
         some ExecHandle.asyncProcess, false) := by
  decide

/-- C9 (counterexample): the dry run of `JobManager.cleanup_old_jobs`
reports zero reclaimed space even when the live run on the same state
reclaims a non-zero amount, because the size is accumulated only inside
the live branch. -/
theorem dry_run_reports_zero_space :
    (cleanup_old_jobs
        [{ id := "j1", status := JobStatus.completed, completedAt := some 0,
           demFilename := some "d1" }]
        { results := [("j1", 5)], uploads := [] } 1 1 true).1.spaceFreedMb = 0 ∧
      (cleanup_old_jobs
        [{ id := "j1", status := JobStatus.completed, completedAt := some 0,
           demFilename := some "d1" }]
        { results := [("j1", 5)], uploads := [] } 1 1 false).1.spaceFreedMb = 5 ∧
      (0 : ℕ) ≠ 5 := by
  decide

/-- A dry successful-jobs pass only counts: state is untouched. -/
theorem appSuccessStep_dry_fold (l : List CleanupJob) :
    ∀ (s : CleanupStats) (f : DataDirs),
      l.foldl (appSuccessStep true) (s, f) =
        ({ processedJobs := s.processedJobs + l.length,
           successfulCleaned := s.successfulCleaned + l.length,
           failedDeleted := s.failedDeleted,
           spaceFreedMb := s.spaceFreedMb }, f) := by
  induction l with
  | nil => intro s f; simp
  | cons j t ih =>
      intro s f
      rw [List.foldl_cons,
        show appSuccessStep true (s, f) j =
          ({ processedJobs := s.processedJobs + 1,
             successfulCleaned := s.successfulCleaned + 1,
             failedDeleted := s.failedDeleted,
             spaceFreedMb := s.spaceFreedMb }, f) from by simp [appSuccessStep],
        ih]
      simp only [List.length_cons, Prod.mk.injEq, CleanupStats.mk.injEq, and_true,
        true_and]
      omega

/-- A dry failed-jobs pass only counts: state is untouched. -/
theorem appFailedStep_dry_fold (l : List CleanupJob) :
    ∀ (s : CleanupStats) (d : List CleanupJob) (f : DataDirs),
      l.foldl (appFailedStep true) (s, d, f) =
        ({ processedJobs := s.processedJobs + l.length,
           successfulCleaned := s.successfulCleaned,
           failedDeleted := s.failedDeleted + l.length,
           spaceFreedMb := s.spaceFreedMb }, d, f) := by
  induction l with
  | nil => intro s d f; simp
  | cons j t ih =>
      intro s d f
      rw [List.foldl_cons,
        show appFailedStep true (s, d, f) j =
          ({ processedJobs := s.processedJobs + 1,
             successfulCleaned := s.successfulCleaned,
             failedDeleted := s.failedDeleted + 1,
             spaceFreedMb := s.spaceFreedMb }, d, f) from by simp [appFailedStep],
        ih]
      simp only [List.length_cons, Prod.mk.injEq, CleanupStats.mk.injEq, and_true,
        true_and]
      omega

/-- One successful-jobs iteration increments the two counters and leaves
the failure counter alone, in either mode. -/
theorem appSuccessStep_counts (dry : Bool) (s : CleanupStats) (f : DataDirs)
    (j : CleanupJob) :
    (appSuccessStep dry (s, f) j).1.successfulCleaned = s.successfulCleaned + 1 ∧
      (appSuccessStep dry (s, f) j).1.processedJobs = s.processedJobs + 1 ∧
      (appSuccessStep dry (s, f) j).1.failedDeleted = s.failedDeleted := by
  unfold appSuccessStep
  cases dry
  · cases hl : lookupSize f.results j.id <;> simp [hl]
  · simp

/-- One failed-jobs iteration increments the two counters and leaves the
success counter alone, in either mode. -/
theorem appFailedStep_counts (dry : Bool) (s : CleanupStats) (d : List CleanupJob)
    (f : DataDirs) (j : CleanupJob) :
    (appFailedStep dry (s, d, f) j).1.failedDeleted = s.failedDeleted + 1 ∧
      (appFailedStep dry (s, d, f) j).1.processedJobs = s.processedJobs + 1 ∧
      (appFailedStep dry (s, d, f) j).1.successfulCleaned = s.successfulCleaned := by
  unfold appFailedStep
  cases dry
  · cases hl : lookupSize f.results j.id <;>
      cases hdf : j.demFilename <;>
        simp [hl, hdf] <;>
          (rename_i g
           cases hlu : lookupSize f.uploads g <;> simp [hlu])
  · simp

/-- Counter totals of a successful-jobs pass depend only on the number of
selected jobs, never on the mode or the filesystem. -/
theorem appSuccess_fold_counts (dry : Bool) (l : List CleanupJob) :
    ∀ (s : CleanupStats) (f : DataDirs),
      (l.foldl (appSuccessStep dry) (s, f)).1.successfulCleaned =
          s.successfulCleaned + l.length ∧
        (l.foldl (appSuccessStep dry) (s, f)).1.processedJobs =
          s.processedJobs + l.length ∧
        (l.foldl (appSuccessStep dry) (s, f)).1.failedDeleted = s.failedDeleted := by
  induction l with
  | nil => intro s f; simp
  | cons j t ih =>
      intro s f
      rw [List.foldl_cons]
      obtain ⟨h1, h2, h3⟩ := appSuccessStep_counts dry s f j
      obtain ⟨g1, g2, g3⟩ :=
        ih (appSuccessStep dry (s, f) j).1 (appSuccessStep dry (s, f) j).2
      have g1b : (List.foldl (appSuccessStep dry) (appSuccessStep dry (s, f) j)
          t).1.successfulCleaned =
          (appSuccessStep dry (s, f) j).1.successfulCleaned + t.length := g1
      have g2b : (List.foldl (appSuccessStep dry) (appSuccessStep dry (s, f) j)
          t).1.processedJobs =
          (appSuccessStep dry (s, f) j).1.processedJobs + t.length := g2
      have g3b : (List.foldl (appSuccessStep dry) (appSuccessStep dry (s, f) j)
          t).1.failedDeleted = (appSuccessStep dry (s, f) j).1.failedDeleted := g3
      simp only [List.length_cons]
      omega

/-- Counter totals of a failed-jobs pass depend only on the number of
selected jobs, never on the mode, the database or the filesystem. -/
theorem appFailed_fold_counts (dry : Bool) (l : List CleanupJob) :
    ∀ (s : CleanupStats) (d : List CleanupJob) (f : DataDirs),
      (l.foldl (appFailedStep dry) (s, d, f)).1.failedDeleted =
          s.failedDeleted + l.length ∧
        (l.foldl (appFailedStep dry) (s, d, f)).1.processedJobs =
          s.processedJobs + l.length ∧
        (l.foldl (appFailedStep dry) (s, d, f)).1.successfulCleaned =
          s.successfulCleaned := by
  induction l with
  | nil => intro s d f; simp
  | cons j t ih =>
      intro s d f
      rw [List.foldl_cons]
      obtain ⟨h1, h2, h3⟩ := appFailedStep_counts dry s d f j
      obtain ⟨g1, g2, g3⟩ := ih (appFailedStep dry (s, d, f) j).1
        (appFailedStep dry (s, d, f) j).2.1 (appFailedStep dry (s, d, f) j).2.2
      have g1b : (List.foldl (appFailedStep dry) (appFailedStep dry (s, d, f) j)
          t).1.failedDeleted =
          (appFailedStep dry (s, d, f) j).1.failedDeleted + t.length := g1
      have g2b : (List.foldl (appFailedStep dry) (appFailedStep dry (s, d, f) j)
          t).1.processedJobs =
          (appFailedStep dry (s, d, f) j).1.processedJobs + t.length := g2
      have g3b : (List.foldl (appFailedStep dry) (appFailedStep dry (s, d, f) j)
          t).1.successfulCleaned =
          (appFailedStep dry (s, d, f) j).1.successfulCleaned := g3
      simp only [List.length_cons]
      omega

/-- The per-job cleanup of the standalone script reports the identical
statistics in dry and live mode and mutates nothing in dry mode. -/
theorem script_cleanup_dry_live (dj : CleanupJob) (keep : Bool) (fs : DataDirs)
    (db : List CleanupJob) :
    (script_cleanup_job_data true keep dj fs db).1 =
        (script_cleanup_job_data false keep dj fs db).1 ∧
      (script_cleanup_job_data true keep dj fs db).2.1 = fs ∧
      (script_cleanup_job_data true keep dj fs db).2.2 = db := by
  unfold script_cleanup_job_data
  cases keep <;>
    cases hres : lookupSize fs.results dj.id <;>
      cases hdf : dj.demFilename <;>
        simp [hres, hdf] <;>
          (rename_i g
           cases hlu : lookupSize fs.uploads g <;> simp [hlu])

/-- C9 (amended): dry and live retention runs select the same jobs and
report the same per-category counts, and only the live run mutates state;
the standalone script also reports the same reclaimed size in both modes,
but `JobManager.cleanup_old_jobs` accumulates the reclaimed size only in
live mode, so its dry run always reports zero. -/
theorem retention_dry_live (db : List CleanupJob) (fs : DataDirs) (sc fc : ℕ) :
    ((cleanup_old_jobs db fs sc fc true).1.processedJobs =
        (cleanup_old_jobs db fs sc fc false).1.processedJobs ∧
      (cleanup_old_jobs db fs sc fc true).1.successfulCleaned =
        (cleanup_old_jobs db fs sc fc false).1.successfulCleaned ∧
      (cleanup_old_jobs db fs sc fc true).1.failedDeleted =
        (cleanup_old_jobs db fs sc fc false).1.failedDeleted) ∧
    ((cleanup_old_jobs db fs sc fc true).2.1 = db ∧
      (cleanup_old_jobs db fs sc fc true).2.2 = fs) ∧
    (cleanup_old_jobs db fs sc fc true).1.spaceFreedMb = 0 ∧
    (∀ (dj : CleanupJob) (keep : Bool),
      (script_cleanup_job_data true keep dj fs db).1 =
          (script_cleanup_job_data false keep dj fs db).1 ∧
        (script_cleanup_job_data true keep dj fs db).2.1 = fs ∧
        (script_cleanup_job_data true keep dj fs db).2.2 = db) := by
  have hdry : cleanup_old_jobs db fs sc fc true =
      ({ processedJobs := (selectCleanupJobs db JobStatus.completed sc).length +
            (selectCleanupJobs db JobStatus.failed fc).length,
         successfulCleaned := (selectCleanupJobs db JobStatus.completed sc).length,
         failedDeleted := (selectCleanupJobs db JobStatus.failed fc).length,
         spaceFreedMb := 0 }, db, fs) := by
    simp only [cleanup_old_jobs]
    rw [appSuccessStep_dry_fold, appFailedStep_dry_fold]
    simp only [Prod.mk.injEq, CleanupStats.mk.injEq, and_true, true_and]
    have hi1 : CleanupStats.init.processedJobs = 0 := rfl
    have hi2 : CleanupStats.init.successfulCleaned = 0 := rfl
    have hi3 : CleanupStats.init.failedDeleted = 0 := rfl
    have hi4 : CleanupStats.init.spaceFreedMb = 0 := rfl
    omega
  have hcounts : ∀ mode : Bool,
      (cleanup_old_jobs db fs sc fc mode).1.processedJobs =
          (selectCleanupJobs db JobStatus.completed sc).length +
            (selectCleanupJobs db JobStatus.failed fc).length ∧
        (cleanup_old_jobs db fs sc fc mode).1.successfulCleaned =
          (selectCleanupJobs db JobStatus.completed sc).length ∧
        (cleanup_old_jobs db fs sc fc mode).1.failedDeleted =
          (selectCleanupJobs db JobStatus.failed fc).length := by
    intro mode
    simp only [cleanup_old_jobs]
    obtain ⟨s1, s2, s3⟩ := appSuccess_fold_counts mode
      (selectCleanupJobs db JobStatus.completed sc) CleanupStats.init fs
    obtain ⟨f1, f2, f3⟩ := appFailed_fold_counts mode
      (selectCleanupJobs db JobStatus.failed fc)
      ((selectCleanupJobs db JobStatus.completed sc).foldl
          (appSuccessStep mode) (CleanupStats.init, fs)).1 db
      ((selectCleanupJobs db JobStatus.completed sc).foldl
          (appSuccessStep mode) (CleanupStats.init, fs)).2
    have hi1 : CleanupStats.init.processedJobs = 0 := rfl
    have hi2 : CleanupStats.init.successfulCleaned = 0 := rfl
    have hi3 : CleanupStats.init.failedDeleted = 0 := rfl
    refine ⟨?_, ?_, ?_⟩ <;> omega
  refine ⟨⟨?_, ?_, ?_⟩, ⟨by rw [hdry], by rw [hdry]⟩, by rw [hdry],
    fun dj keep => script_cleanup_dry_live dj keep fs db⟩
  · rw [(hcounts true).1, (hcounts false).1]
  · rw [(hcounts true).2.1, (hcounts false).2.1]
  · rw [(hcounts true).2.2, (hcounts false).2.2]

/-- C8 (counterexample): with the default configuration
(`reconnect_attempts = 5`), six successive non-zero worker exits produce
six restarts — the configured maximum is exceeded, contradicting "never
performs more than the configured maximum number of reconnect
attempts". -/
theorem worker_restarts_exceed_maximum :
    monitor_worker_restarts { reconnectAttempts := 5, reconnectDelay := 10 }
        [1, 1, 1, 1, 1, 1] = 6 ∧ 5 < 6 := by
  decide

/-- C8 (amended): the monitor chain restarts the worker after every
non-zero exit as long as the configured attempt count is positive — the
number of restarts equals the number of leading non-zero exit codes, with
no ceiling — and performs none when the attempt count is zero; a zero exit
code never triggers a reconnection. -/
theorem monitor_worker_restarts_unbounded (cfg : WorkerConfig) (codes : List ℤ) :
    monitor_worker_restarts cfg codes =
        (if 0 < cfg.reconnectAttempts then
          (codes.takeWhile (fun c => decide (c ≠ 0))).length
        else 0) ∧
      monitor_worker_restarts cfg (0 :: codes) = 0 := by
  refine ⟨?_, by simp [monitor_worker_restarts]⟩
  induction codes with
  | nil => simp [monitor_worker_restarts]
  | cons code rest ih =>
      by_cases hc : code = 0
      · subst hc
        simp [monitor_worker_restarts, List.takeWhile]
      · by_cases ha : 0 < cfg.reconnectAttempts
        · simp [monitor_worker_restarts, List.takeWhile, hc, ha, ih]
        · simp [monitor_worker_restarts, hc, ha]

end EEMT
